import Mathlib

/-!
Verification of the ColorBuffer core (ColorBuffer.h, libOpenglRender):
the reentrancy-aware scoped context guard `RecursiveScopedHelperContext`
is embedded faithfully from its inline definition in the header, as a
state machine over an abstract `Helper` behaviour together with a log of
the helper calls the guard performs.  The ColorBuffer operation bodies
are not part of the visible sources (the header only declares them);
where a property depends on them they are modelled from the spec, with a
doc comment saying so.
-/

namespace ColorBufferSpec

/-- Abstract behaviour of a `ColorBuffer::Helper` as observed by one guard:
`isBound` is what `isBound()` reports at construction time, `setupOk` is the
result `setupContext()` would return if called.  (Both are fixed for the
duration of one guard, matching the single-threaded use in the source.) -/
structure Helper where
  isBound : Bool
  setupOk : Bool
deriving DecidableEq

/-- Log of the helper calls a guard has performed so far. -/
structure CallLog where
  setupCalls : Nat
  teardownCalls : Nat
deriving DecidableEq

/-- The fields of `RecursiveScopedHelperContext`: `mHelper` is the stored
helper pointer (`none` models `NULL`), `mNeedUnbind` the owed-teardown flag
(initialised `false` in the class). -/
structure GuardState where
  mHelper : Option Helper
  mNeedUnbind : Bool
deriving DecidableEq

/-- The constructor `RecursiveScopedHelperContext(helper)` (ColorBuffer.h
lines 89-96).  The argument is a possibly-null pointer; the constructor
unconditionally calls `helper->isBound()`, so a null argument is a null
dereference, modelled by the result `none`.  Otherwise: if bound, return
at once (no setup, `mNeedUnbind` stays false); else call `setupContext()`;
on failure set `mHelper = NULL`; on success set `mNeedUnbind = true`. -/
def mkGuard (helper : Option Helper) : Option (GuardState × CallLog) :=
  match helper with
  | none => none
  | some h =>
    if h.isBound then
      some ({ mHelper := some h, mNeedUnbind := false }, ⟨0, 0⟩)
    else if h.setupOk then
      some ({ mHelper := some h, mNeedUnbind := true }, ⟨1, 0⟩)
    else
      some ({ mHelper := none, mNeedUnbind := false }, ⟨1, 0⟩)

/-- `isOk()` (line 98): the stored helper pointer is non-null. -/
def GuardState.isOk (g : GuardState) : Bool :=
  g.mHelper.isSome

/-- `release()` (lines 102-108): if `mNeedUnbind`, call
`mHelper->teardownContext()` (a null dereference, modelled by `none`, if
`mHelper` were null there) and clear the flag; then set `mHelper = NULL`. -/
def release (g : GuardState) (log : CallLog) : Option (GuardState × CallLog) :=
  if g.mNeedUnbind then
    match g.mHelper with
    | none => none
    | some _ =>
      some ({ mHelper := none, mNeedUnbind := false },
            { log with teardownCalls := log.teardownCalls + 1 })
  else
    some ({ g with mHelper := none }, log)

/-- `n` successive explicit `release()` calls. -/
def releaseN : Nat → GuardState × CallLog → Option (GuardState × CallLog)
  | 0, s => some s
  | n + 1, s => (release s.1 s.2).bind (releaseN n)

/-- A full guard lifetime: construction from `helper`, then `n` explicit
`release()` calls, then the destructor (line 100), which calls `release()`. -/
def guardRun (helper : Option Helper) (n : Nat) : Option (GuardState × CallLog) :=
  (mkGuard helper).bind fun s =>
    (releaseN n s).bind fun s2 => release s2.1 s2.2

/-- Number of `setupContext()` calls performed by guard construction. -/
def constructedSetupCalls (helper : Option Helper) : Option Nat :=
  (mkGuard helper).map fun s => s.2.setupCalls

/-- Value of `isOk()` right after guard construction. -/
def constructedOk (helper : Option Helper) : Option Bool :=
  (mkGuard helper).map fun s => s.1.isOk

/-- Total number of `teardownContext()` calls over a full guard lifetime
with `n` explicit releases before destruction. -/
def runTeardownCalls (helper : Option Helper) (n : Nat) : Option Nat :=
  (guardRun helper n).map fun s => s.2.teardownCalls

/-- The framework format of the guest buffer (FrameworkFormats.h is not
under src/; per the spec it is either a GL-compatible layout or a
YUV-family layout requiring conversion before the primary image reflects
uploaded pixels). -/
inductive FrameworkFormat
  | glCompatible
  | yuv
deriving DecidableEq

/-- Modelled from the spec: the ColorBuffer instance state.  The bodies of
the ColorBuffer member functions are not under src/ (ColorBuffer.h lines
129-204 only declare them), so the observable state is modelled from spec
sections 3 and 4.3: fixed dimensions and formats, the primary image texel
contents, and the lazily created optional resources.  `m_blitPresent`
models `m_blitEGLImage`/`m_blitTex` being allocated, `m_yuvTargetPresent`
models `m_yuv_conversion_fbo` being allocated, `m_resizerPresent` models
`m_resizer` being non-null, and `resizerCreations` counts resizer
constructions (the call count on a test double from spec section 8).
`m_internalType` is the data type of the internal representation, paired
with `m_internalFormat` to identify the identity-format case. -/
structure ColorBuffer where
  m_width : Nat
  m_height : Nat
  m_internalFormat : Nat
  m_internalType : Nat
  m_frameworkFormat : FrameworkFormat
  m_display : Nat
  mHndl : Nat
  contents : Nat → Nat → Nat
  m_blitPresent : Bool
  m_yuvTargetPresent : Bool
  m_resizerPresent : Bool
  resizerCreations : Nat

/-- `getWidth()` (ColorBuffer.h line 142). -/
def ColorBuffer.getWidth (cb : ColorBuffer) : Nat :=
  cb.m_width

/-- `getHeight()` (ColorBuffer.h line 143). -/
def ColorBuffer.getHeight (cb : ColorBuffer) : Nat :=
  cb.m_height

/-- `getHndl()` (ColorBuffer.h line 204). -/
def ColorBuffer.getHndl (cb : ColorBuffer) : Nat :=
  cb.mHndl

/-- Modelled from the spec: the body of `ColorBuffer::create` is not under
src/ (ColorBuffer.h lines 129-136 declare it).  Per spec section 4.3 it
validates positive dimensions, allocates the primary GPU image and texture
(`allocOk` models whether that driver allocation succeeds), and returns
NULL (`none`) on validation or allocation failure, a live instance
otherwise.  The lazy resources are absent at creation. -/
def ColorBuffer.create (p_display : Nat) (p_width p_height : Int)
    (p_internalFormat : Nat) (p_frameworkFormat : FrameworkFormat)
    (has_eglimage_texture_2d : Bool) (hndl : Nat) (allocOk : Bool) :
    Option ColorBuffer :=
  if p_width ≤ 0 ∨ p_height ≤ 0 then none
  else if allocOk then
    some { m_width := p_width.toNat
           m_height := p_height.toNat
           m_internalFormat := p_internalFormat
           m_internalType := 0
           m_frameworkFormat := p_frameworkFormat
           m_display := p_display
           mHndl := hndl
           contents := fun _ _ => 0
           m_blitPresent := false
           m_yuvTargetPresent := false
           m_resizerPresent := false
           resizerCreations := 0 }
  else none

/-- Modelled from the spec: `subUpdate` (declared at ColorBuffer.h lines
159-165) uploads host texels into the sub-rectangle, converting each texel
from `p_format`/`p_type` to the internal representation via the conversion
function `conv` (an arbitrary driver conversion, constrained only in
theorems by the identity-format property); when the framework format is a
YUV variant, the data passes through the YUV conversion target, which is
created lazily on first need. -/
def ColorBuffer.subUpdate (conv : Nat → Nat → Nat → Nat → Nat → Nat)
    (cb : ColorBuffer) (x y w h : Nat) (p_format p_type : Nat)
    (pixels : Nat → Nat → Nat) : ColorBuffer :=
  { cb with
    contents := fun a b =>
      if x ≤ a ∧ a < x + w ∧ y ≤ b ∧ b < y + h then
        conv p_format p_type cb.m_internalFormat cb.m_internalType
          (pixels (a - x) (b - y))
      else cb.contents a b
    m_yuvTargetPresent :=
      cb.m_yuvTargetPresent || decide (cb.m_frameworkFormat = .yuv) }

/-- Modelled from the spec: `readPixels` (declared at ColorBuffer.h lines
146-152) copies the requested rectangle of the primary image into host
memory row by row, converting each texel from the internal representation
to `p_format`/`p_type` via `conv`. -/
def ColorBuffer.readPixels (conv : Nat → Nat → Nat → Nat → Nat → Nat)
    (cb : ColorBuffer) (x y w h : Nat) (p_format p_type : Nat) :
    List (List Nat) :=
  (List.range h).map fun j => (List.range w).map fun i =>
    conv cb.m_internalFormat cb.m_internalType p_format p_type
      (cb.contents (x + i) (y + j))

/-- Modelled from the spec: `scale` (declared at ColorBuffer.h line 173)
lazily creates the resizer collaborator on first use and reuses it
afterwards; the returned texture handle is not modelled. -/
def ColorBuffer.scale (cb : ColorBuffer) : ColorBuffer :=
  { cb with
    m_resizerPresent := true
    resizerCreations :=
      cb.resizerCreations + (if cb.m_resizerPresent then 0 else 1) }

/-- Modelled from the spec: `blitFromCurrentReadBuffer` (declared at
ColorBuffer.h lines 189-192) copies the current read surface into the
primary image through a separate blit copy target, created lazily on
first need. -/
def ColorBuffer.blitFromCurrentReadBuffer (cb : ColorBuffer) : ColorBuffer :=
  { cb with m_blitPresent := true }

/-- The public ColorBuffer operations of spec section 4.3 (the pixel data
of a subUpdate is carried as a texel function; parameters that no claim
observes, such as the post rotation and offsets, are carried opaquely). -/
inductive CBOp
  | readPixels (x y w h p_format p_type : Nat)
  | subUpdate (x y w h p_format p_type : Nat) (pixels : Nat → Nat → Nat)
  | draw
  | scale
  | post (tex : Nat) (rotation dx dy : Int)
  | bindToTexture
  | bindToRenderbuffer
  | blitFromCurrentReadBuffer
  | readback

/-- Whether a guard constructed on this helper behaviour has `isOk()` true:
already bound, or setup succeeds. -/
def Helper.guardOk (h : Helper) : Bool :=
  h.isBound || h.setupOk

/-- The state effect of one public operation once the guard is ok. -/
def applyOp (conv : Nat → Nat → Nat → Nat → Nat → Nat)
    (cb : ColorBuffer) : CBOp → ColorBuffer
  | .readPixels .. => cb
  | .subUpdate x y w h f t pixels => cb.subUpdate conv x y w h f t pixels
  | .draw => cb
  | .scale => cb.scale
  | .post .. => cb
  | .bindToTexture => cb
  | .bindToRenderbuffer => cb
  | .blitFromCurrentReadBuffer => cb.blitFromCurrentReadBuffer
  | .readback => cb

/-- Modelled from the spec: every public ColorBuffer operation first
constructs a `RecursiveScopedHelperContext` on the supplied helper (the
guard embedded above from the source), aborts with a failure result,
unchanged state and no driver call when `isOk()` is false, and otherwise
performs its GPU work (counted as one driver call) and releases the guard
at scope exit.  The result is (new state, success, driver calls made). -/
def CBStep (conv : Nat → Nat → Nat → Nat → Nat → Nat) (h : Helper)
    (cb : ColorBuffer) (op : CBOp) : ColorBuffer × Bool × Nat :=
  match mkGuard (some h) with
  | none => (cb, false, 0)
  | some (g, _) =>
    if g.isOk then (applyOp conv cb op, true, 1) else (cb, false, 0)

/-- Run a sequence of public operations, each under the helper behaviour
paired with it. -/
def runOps (conv : Nat → Nat → Nat → Nat → Nat → Nat)
    (cb : ColorBuffer) : List (CBOp × Helper) → ColorBuffer
  | [] => cb
  | (op, h) :: rest => runOps conv (CBStep conv h cb op).1 rest

/-- Does the operation need the resizer collaborator? -/
def needsResizer : CBOp → Bool
  | .scale => true
  | _ => false

/-- Does the operation need the blit copy target? -/
def needsBlit : CBOp → Bool
  | .blitFromCurrentReadBuffer => true
  | _ => false

/-- Does the operation need the YUV conversion target, for a buffer of the
given framework format? -/
def needsYuvTarget (fw : FrameworkFormat) : CBOp → Bool
  | .subUpdate .. => decide (fw = .yuv)
  | _ => false

/-- A conversion function that never alters texels; used by witnesses. -/
def idConv : Nat → Nat → Nat → Nat → Nat → Nat :=
  fun _ _ _ _ v => v

/-- A concrete live ColorBuffer used by witnesses: 64 x 64, lazy resources
absent. -/
def sampleCB : ColorBuffer where
  m_width := 64
  m_height := 64
  m_internalFormat := 4
  m_internalType := 2
  m_frameworkFormat := .glCompatible
  m_display := 0
  mHndl := 7
  contents := fun _ _ => 0
  m_blitPresent := false
  m_yuvTargetPresent := false
  m_resizerPresent := false
  resizerCreations := 0

/-- A concrete operation sequence used by witnesses: two consecutive scale
calls, both under a helper whose guard succeeds. -/
def demoOps : List (CBOp × Helper) :=
  [(.scale, ⟨true, false⟩), (.scale, ⟨false, true⟩)]

/-- The concrete buffer produced by the witness call to `create`. -/
def createdCB : ColorBuffer where
  m_width := 64
  m_height := 64
  m_internalFormat := 4
  m_internalType := 0
  m_frameworkFormat := .glCompatible
  m_display := 0
  mHndl := 7
  contents := fun _ _ => 0
  m_blitPresent := false
  m_yuvTargetPresent := false
  m_resizerPresent := false
  resizerCreations := 0

/-- Concrete pixel data used by the round-trip witness. -/
def demoPixels : Nat → Nat → Nat :=
  fun i j => i + 10 * j + 1

lemma mkGuard_bound (h : Helper) (hb : h.isBound = true) :
    mkGuard (some h) = some (⟨some h, false⟩, ⟨0, 0⟩) := by
  simp [mkGuard, hb]

lemma mkGuard_setup (h : Helper) (hb : h.isBound = false) (hs : h.setupOk = true) :
    mkGuard (some h) = some (⟨some h, true⟩, ⟨1, 0⟩) := by
  simp [mkGuard, hb, hs]

lemma mkGuard_fail (h : Helper) (hb : h.isBound = false) (hs : h.setupOk = false) :
    mkGuard (some h) = some (⟨none, false⟩, ⟨1, 0⟩) := by
  simp [mkGuard, hb, hs]

lemma release_noUnbind (g : GuardState) (log : CallLog) (hg : g.mNeedUnbind = false) :
    release g log = some ({ g with mHelper := none }, log) := by
  simp [release, hg]

lemma release_owed (h : Helper) (log : CallLog) :
    release ⟨some h, true⟩ log =
      some (⟨none, false⟩, { log with teardownCalls := log.teardownCalls + 1 }) := by
  simp [release]

lemma releaseN_noUnbind (n : Nat) (g : GuardState) (log : CallLog)
    (hg : g.mNeedUnbind = false) :
    ∃ g2 : GuardState, releaseN n (g, log) = some (g2, log) ∧ g2.mNeedUnbind = false := by
  induction n generalizing g with
  | zero => exact ⟨g, rfl, hg⟩
  | succ m ih =>
    have hrel := release_noUnbind g log hg
    have hg2 : ({ g with mHelper := none } : GuardState).mNeedUnbind = false := hg
    obtain ⟨g2, hrun, hflag⟩ := ih { g with mHelper := none } hg2
    exact ⟨g2, by simp [releaseN, hrel, hrun], hflag⟩

/-- Full-lifetime characterisation: for a non-null helper the run always
completes, `setupContext()` is called exactly when not already bound, and
`teardownContext()` is called exactly when the constructor performed a
successful setup. -/
lemma guardRun_eq (h : Helper) (n : Nat) :
    ∃ g2 : GuardState, guardRun (some h) n =
      some (g2, ⟨if h.isBound then 0 else 1,
                 if h.isBound = false ∧ h.setupOk = true then 1 else 0⟩) := by
  by_cases hb : h.isBound = true
  · obtain ⟨g2, hrun, hflag⟩ :=
      releaseN_noUnbind n ⟨some h, false⟩ ⟨0, 0⟩ rfl
    refine ⟨{ g2 with mHelper := none }, ?_⟩
    simp [guardRun, mkGuard_bound h hb, hrun, release_noUnbind g2 _ hflag, hb]
  · have hb' : h.isBound = false := by simpa using hb
    by_cases hs : h.setupOk = true
    · cases n with
      | zero =>
        refine ⟨⟨none, false⟩, ?_⟩
        simp [guardRun, mkGuard_setup h hb' hs, releaseN, release_owed, hb', hs]
      | succ m =>
        obtain ⟨g2, hrun, hflag⟩ :=
          releaseN_noUnbind m ⟨none, false⟩ ⟨1, 1⟩ rfl
        refine ⟨{ g2 with mHelper := none }, ?_⟩
        have hstep : releaseN (m + 1) ((⟨some h, true⟩ : GuardState), (⟨1, 0⟩ : CallLog)) =
            some (g2, ⟨1, 1⟩) := by
          simp [releaseN, release_owed, hrun]
        simp [guardRun, mkGuard_setup h hb' hs, hstep,
              release_noUnbind g2 _ hflag, hb', hs]
    · have hs' : h.setupOk = false := by simpa using hs
      obtain ⟨g2, hrun, hflag⟩ :=
        releaseN_noUnbind n ⟨none, false⟩ ⟨1, 0⟩ rfl
      refine ⟨{ g2 with mHelper := none }, ?_⟩
      simp [guardRun, mkGuard_fail h hb' hs', hrun,
            release_noUnbind g2 _ hflag, hb', hs']

lemma CBStep_eq (conv : Nat → Nat → Nat → Nat → Nat → Nat) (h : Helper)
    (cb : ColorBuffer) (op : CBOp) :
    CBStep conv h cb op =
      if h.guardOk then (applyOp conv cb op, true, 1) else (cb, false, 0) := by
  cases hb : h.isBound <;> cases hs : h.setupOk <;>
    simp [CBStep, mkGuard, Helper.guardOk, GuardState.isOk, hb, hs]

lemma applyOp_fixed (conv : Nat → Nat → Nat → Nat → Nat → Nat)
    (cb : ColorBuffer) (op : CBOp) :
    (applyOp conv cb op).m_width = cb.m_width ∧
    (applyOp conv cb op).m_height = cb.m_height ∧
    (applyOp conv cb op).m_frameworkFormat = cb.m_frameworkFormat := by
  cases op <;>
    simp [applyOp, ColorBuffer.subUpdate, ColorBuffer.scale,
      ColorBuffer.blitFromCurrentReadBuffer]

lemma CBStep_fixed (conv : Nat → Nat → Nat → Nat → Nat → Nat) (h : Helper)
    (cb : ColorBuffer) (op : CBOp) :
    (CBStep conv h cb op).1.m_width = cb.m_width ∧
    (CBStep conv h cb op).1.m_height = cb.m_height ∧
    (CBStep conv h cb op).1.m_frameworkFormat = cb.m_frameworkFormat := by
  rw [CBStep_eq]
  by_cases hok : h.guardOk = true
  · simpa [hok] using applyOp_fixed conv cb op
  · simp [hok]

lemma CBStep_resizerPresent (conv : Nat → Nat → Nat → Nat → Nat → Nat)
    (h : Helper) (cb : ColorBuffer) (op : CBOp) :
    (CBStep conv h cb op).1.m_resizerPresent =
      (cb.m_resizerPresent || (h.guardOk && needsResizer op)) := by
  rw [CBStep_eq]
  by_cases hok : h.guardOk = true
  · cases op <;>
      simp [hok, applyOp, ColorBuffer.subUpdate, ColorBuffer.scale,
        ColorBuffer.blitFromCurrentReadBuffer, needsResizer]
  · have hok' : h.guardOk = false := by simpa using hok
    simp [hok']

lemma CBStep_resizerCreations (conv : Nat → Nat → Nat → Nat → Nat → Nat)
    (h : Helper) (cb : ColorBuffer) (op : CBOp) :
    (CBStep conv h cb op).1.resizerCreations =
      cb.resizerCreations +
        (if cb.m_resizerPresent = false ∧ (h.guardOk && needsResizer op) = true
         then 1 else 0) := by
  rw [CBStep_eq]
  by_cases hok : h.guardOk = true
  · cases op <;> cases hp : cb.m_resizerPresent <;>
      simp [hok, hp, applyOp, ColorBuffer.subUpdate, ColorBuffer.scale,
        ColorBuffer.blitFromCurrentReadBuffer, needsResizer]
  · have hok' : h.guardOk = false := by simpa using hok
    simp [hok']

lemma CBStep_blitPresent (conv : Nat → Nat → Nat → Nat → Nat → Nat)
    (h : Helper) (cb : ColorBuffer) (op : CBOp) :
    (CBStep conv h cb op).1.m_blitPresent =
      (cb.m_blitPresent || (h.guardOk && needsBlit op)) := by
  rw [CBStep_eq]
  by_cases hok : h.guardOk = true
  · cases op <;>
      simp [hok, applyOp, ColorBuffer.subUpdate, ColorBuffer.scale,
        ColorBuffer.blitFromCurrentReadBuffer, needsBlit]
  · have hok' : h.guardOk = false := by simpa using hok
    simp [hok']

lemma CBStep_yuvPresent (conv : Nat → Nat → Nat → Nat → Nat → Nat)
    (h : Helper) (cb : ColorBuffer) (op : CBOp) :
    (CBStep conv h cb op).1.m_yuvTargetPresent =
      (cb.m_yuvTargetPresent ||
        (h.guardOk && needsYuvTarget cb.m_frameworkFormat op)) := by
  rw [CBStep_eq]
  by_cases hok : h.guardOk = true
  · cases op <;>
      simp [hok, applyOp, ColorBuffer.subUpdate, ColorBuffer.scale,
        ColorBuffer.blitFromCurrentReadBuffer, needsYuvTarget]
  · have hok' : h.guardOk = false := by simpa using hok
    simp [hok']

lemma runOps_fixed (conv : Nat → Nat → Nat → Nat → Nat → Nat)
    (cb : ColorBuffer) (ops : List (CBOp × Helper)) :
    (runOps conv cb ops).m_width = cb.m_width ∧
    (runOps conv cb ops).m_height = cb.m_height ∧
    (runOps conv cb ops).m_frameworkFormat = cb.m_frameworkFormat := by
  induction ops generalizing cb with
  | nil => exact ⟨rfl, rfl, rfl⟩
  | cons p rest ih =>
    obtain ⟨op, h⟩ := p
    obtain ⟨hw, hh, hf⟩ := ih (CBStep conv h cb op).1
    obtain ⟨sw, sh, sf⟩ := CBStep_fixed conv h cb op
    exact ⟨by simp only [runOps]; rw [hw, sw],
           by simp only [runOps]; rw [hh, sh],
           by simp only [runOps]; rw [hf, sf]⟩

lemma runOps_resizerPresent (conv : Nat → Nat → Nat → Nat → Nat → Nat)
    (cb : ColorBuffer) (ops : List (CBOp × Helper)) :
    (runOps conv cb ops).m_resizerPresent =
      (cb.m_resizerPresent || ops.any fun p => p.2.guardOk && needsResizer p.1) := by
  induction ops generalizing cb with
  | nil => simp [runOps]
  | cons p rest ih =>
    obtain ⟨op, h⟩ := p
    simp only [runOps, List.any_cons]
    rw [ih, CBStep_resizerPresent]
    simp [Bool.or_assoc]

lemma runOps_blitPresent (conv : Nat → Nat → Nat → Nat → Nat → Nat)
    (cb : ColorBuffer) (ops : List (CBOp × Helper)) :
    (runOps conv cb ops).m_blitPresent =
      (cb.m_blitPresent || ops.any fun p => p.2.guardOk && needsBlit p.1) := by
  induction ops generalizing cb with
  | nil => simp [runOps]
  | cons p rest ih =>
    obtain ⟨op, h⟩ := p
    simp only [runOps, List.any_cons]
    rw [ih, CBStep_blitPresent]
    simp [Bool.or_assoc]

lemma runOps_yuvPresent (conv : Nat → Nat → Nat → Nat → Nat → Nat)
    (cb : ColorBuffer) (ops : List (CBOp × Helper)) :
    (runOps conv cb ops).m_yuvTargetPresent =
      (cb.m_yuvTargetPresent ||
        ops.any fun p => p.2.guardOk && needsYuvTarget cb.m_frameworkFormat p.1) := by
  induction ops generalizing cb with
  | nil => simp [runOps]
  | cons p rest ih =>
    obtain ⟨op, h⟩ := p
    simp only [runOps, List.any_cons]
    rw [ih, CBStep_yuvPresent, (CBStep_fixed conv h cb op).2.2]
    simp [Bool.or_assoc]

lemma runOps_creations_present (conv : Nat → Nat → Nat → Nat → Nat → Nat)
    (cb : ColorBuffer) (ops : List (CBOp × Helper))
    (hp : cb.m_resizerPresent = true) :
    (runOps conv cb ops).resizerCreations = cb.resizerCreations := by
  induction ops generalizing cb with
  | nil => rfl
  | cons p rest ih =>
    obtain ⟨op, h⟩ := p
    simp only [runOps]
    have h1 := CBStep_resizerCreations conv h cb op
    have h2 := CBStep_resizerPresent conv h cb op
    simp only [hp] at h1 h2
    simp at h1 h2
    rw [ih _ h2, h1]

lemma runOps_creations_absent (conv : Nat → Nat → Nat → Nat → Nat → Nat)
    (cb : ColorBuffer) (ops : List (CBOp × Helper))
    (hp : cb.m_resizerPresent = false) :
    (runOps conv cb ops).resizerCreations =
      cb.resizerCreations +
        (if (ops.any fun p => p.2.guardOk && needsResizer p.1) = true
         then 1 else 0) := by
  induction ops generalizing cb with
  | nil => simp [runOps]
  | cons p rest ih =>
    obtain ⟨op, h⟩ := p
    simp only [runOps, List.any_cons]
    have h1 := CBStep_resizerCreations conv h cb op
    have h2 := CBStep_resizerPresent conv h cb op
    simp only [hp] at h1 h2
    by_cases hx : (h.guardOk && needsResizer op) = true
    · simp only [hx] at h1 h2
      simp at h1 h2
      rw [runOps_creations_present conv _ rest h2, h1]
      simp only [hx, Bool.true_or]
      simp
    · have hx' : (h.guardOk && needsResizer op) = false := by simpa using hx
      simp only [hx'] at h1 h2
      simp at h1 h2
      rw [ih _ h2, h1]
      simp only [hx', Bool.false_or]

lemma create_inv (p_display : Nat) (pw ph : Int) (pif : Nat)
    (fw : FrameworkFormat) (eg : Bool) (hndl : Nat) (aok : Bool)
    (cb : ColorBuffer)
    (hcb : ColorBuffer.create p_display pw ph pif fw eg hndl aok = some cb) :
    cb.m_blitPresent = false ∧ cb.m_yuvTargetPresent = false ∧
    cb.m_resizerPresent = false ∧ cb.resizerCreations = 0 ∧
    cb.m_frameworkFormat = fw ∧ cb.m_width = pw.toNat ∧
    cb.m_height = ph.toNat := by
  unfold ColorBuffer.create at hcb
  split at hcb
  · simp at hcb
  · split at hcb
    · obtain rfl := Option.some.inj hcb
      exact ⟨rfl, rfl, rfl, rfl, rfl, rfl, rfl⟩
    · simp at hcb

/-- Claim C1: for every helper whose `isBound()` returns true at guard
construction, constructing the guard performs no `setupContext()` call,
`isOk()` returns true afterward, and neither `release()` (any number of
calls) nor destruction ever calls `teardownContext()`. -/
theorem guard_bound_passthrough (h : Helper) (hb : h.isBound = true) (n : Nat) :
    constructedSetupCalls (some h) = some 0 ∧
    constructedOk (some h) = some true ∧
    runTeardownCalls (some h) n = some 0 := by
  obtain ⟨g2, hrun⟩ := guardRun_eq h n
  refine ⟨?_, ?_, ?_⟩
  · simp [constructedSetupCalls, mkGuard_bound h hb]
  · simp [constructedOk, mkGuard_bound h hb, GuardState.isOk]
  · simp [runTeardownCalls, hrun, hb]

/-- Witness for C1 at the concrete helper (isBound = true, setupOk = false)
with two explicit releases before destruction. -/
theorem guard_bound_passthrough_witness :
    (Helper.mk true false).isBound = true ∧
    (constructedSetupCalls (some (Helper.mk true false)) = some 0 ∧
     constructedOk (some (Helper.mk true false)) = some true ∧
     runTeardownCalls (some (Helper.mk true false)) 2 = some 0) :=
  ⟨rfl, guard_bound_passthrough (Helper.mk true false) rfl 2⟩

/-- Claim C2: for every guard constructed when `isBound()` is false and
`setupContext()` returns false, `isOk()` returns false and no
`teardownContext()` call is ever made across any number of releases and
destruction. -/
theorem guard_setup_failure (h : Helper) (hb : h.isBound = false)
    (hs : h.setupOk = false) (n : Nat) :
    constructedOk (some h) = some false ∧
    runTeardownCalls (some h) n = some 0 := by
  obtain ⟨g2, hrun⟩ := guardRun_eq h n
  refine ⟨?_, ?_⟩
  · simp [constructedOk, mkGuard_fail h hb hs, GuardState.isOk]
  · simp [runTeardownCalls, hrun, hb, hs]

/-- Witness for C2 at the concrete helper (isBound = false, setupOk = false)
with three explicit releases before destruction. -/
theorem guard_setup_failure_witness :
    (Helper.mk false false).isBound = false ∧
    (Helper.mk false false).setupOk = false ∧
    (constructedOk (some (Helper.mk false false)) = some false ∧
     runTeardownCalls (some (Helper.mk false false)) 3 = some 0) :=
  ⟨rfl, rfl, guard_setup_failure (Helper.mk false false) rfl rfl 3⟩

/-- Claim C3: release is idempotent.  Over a full lifetime with any number
of explicit `release()` calls followed by destruction, `teardownContext()`
is called exactly once when the constructor performed a successful
`setupContext()` (not bound, setup succeeded) and zero times otherwise;
in particular it is called at most once in total. -/
theorem guard_release_idempotent (h : Helper) (n : Nat) :
    runTeardownCalls (some h) n =
      some (if h.isBound = false ∧ h.setupOk = true then 1 else 0) := by
  obtain ⟨g2, hrun⟩ := guardRun_eq h n
  simp [runTeardownCalls, hrun]

/-- Claim C9 (implicit): after any executed call to `release()`, `isOk()`
returns false, because `release` unconditionally sets the stored helper
pointer to NULL. -/
theorem release_clears_ok (g : GuardState) (log : CallLog)
    (g2 : GuardState) (log2 : CallLog)
    (hrel : release g log = some (g2, log2)) : g2.isOk = false := by
  by_cases hg : g.mNeedUnbind = true
  · cases hh : g.mHelper with
    | none => simp [release, hg, hh] at hrel
    | some h =>
      simp only [release, hg, if_true, hh] at hrel
      obtain ⟨h1, h2⟩ := Prod.mk.injEq .. ▸ Option.some.injEq .. ▸ hrel
      simp [← h1, GuardState.isOk]
  · have hg' : g.mNeedUnbind = false := by simpa using hg
    rw [release_noUnbind g log hg'] at hrel
    obtain ⟨h1, h2⟩ := Prod.mk.injEq .. ▸ Option.some.injEq .. ▸ hrel
    simp [← h1, GuardState.isOk]

/-- Witness for C9: releasing a guard that was ok as a no-op passthrough
(bound helper stored, no teardown owed) yields a state whose `isOk()` is
false. -/
theorem release_clears_ok_witness :
    release ⟨some (Helper.mk true false), false⟩ ⟨0, 0⟩ =
      some (⟨none, false⟩, ⟨0, 0⟩) ∧
    GuardState.isOk ⟨none, false⟩ = false :=
  ⟨rfl, release_clears_ok ⟨some (Helper.mk true false), false⟩ ⟨0, 0⟩
     ⟨none, false⟩ ⟨0, 0⟩ rfl⟩

/-- Claim C10 (implicit): constructing a guard unconditionally dereferences
the supplied helper pointer (a null argument is a null dereference, modelled
by `mkGuard none = none`); under the precondition that the pointer is
non-null, the whole lifetime - construction, any number of releases, and
destruction - executes without ever dereferencing a null pointer (the run
returns `some`). -/
theorem guard_null_safety (h : Helper) (n : Nat) :
    mkGuard none = none ∧ (guardRun (some h) n).isSome = true := by
  obtain ⟨g2, hrun⟩ := guardRun_eq h n
  exact ⟨rfl, by simp [hrun]⟩

/-- Claim C4: for every public operation, when the guard acquired at the
start is not ok (helper not bound and setup fails), the operation returns
a failure result at once with unchanged state and performs no driver
call; in particular `blitFromCurrentReadBuffer` fails that way with no
driver calls attempted. -/
theorem op_guard_failure (conv : Nat → Nat → Nat → Nat → Nat → Nat)
    (h : Helper) (cb : ColorBuffer) (op : CBOp)
    (hb : h.isBound = false) (hs : h.setupOk = false) :
    CBStep conv h cb op = (cb, false, 0) ∧
    CBStep conv h cb .blitFromCurrentReadBuffer = (cb, false, 0) := by
  have hok : h.guardOk = false := by simp [Helper.guardOk, hb, hs]
  exact ⟨by rw [CBStep_eq]; simp [hok], by rw [CBStep_eq]; simp [hok]⟩

/-- Witness for C4: a concrete `blitFromCurrentReadBuffer` call on a
concrete buffer under a helper that is unbound and whose setup fails. -/
theorem op_guard_failure_witness :
    (Helper.mk false false).isBound = false ∧
    (Helper.mk false false).setupOk = false ∧
    (CBStep idConv (Helper.mk false false) sampleCB .blitFromCurrentReadBuffer
        = (sampleCB, false, 0) ∧
     CBStep idConv (Helper.mk false false) sampleCB .blitFromCurrentReadBuffer
        = (sampleCB, false, 0)) :=
  ⟨rfl, rfl,
   op_guard_failure idConv (Helper.mk false false) sampleCB
     .blitFromCurrentReadBuffer rfl rfl⟩

/-- Claim C5: `create` validates positive dimensions and produces no
instance (returns NULL) when validation or the underlying image
allocation fails; in particular width = 0 fails. -/
theorem create_validates (p_display : Nat) (pw ph : Int) (pif : Nat)
    (fw : FrameworkFormat) (eg : Bool) (hndl : Nat) (aok : Bool)
    (hfail : pw ≤ 0 ∨ ph ≤ 0 ∨ aok = false) :
    ColorBuffer.create p_display pw ph pif fw eg hndl aok = none := by
  unfold ColorBuffer.create
  rcases hfail with hw | hh | ha
  · simp [hw]
  · simp [hh]
  · simp [ha]

/-- Witness for C5: `create` with width = 0 returns no instance. -/
theorem create_validates_witness :
    ((0 : Int) ≤ 0 ∨ (64 : Int) ≤ 0 ∨ true = false) ∧
    ColorBuffer.create 0 0 64 4 .glCompatible true 7 true = none :=
  ⟨Or.inl le_rfl,
   create_validates 0 0 64 4 .glCompatible true 7 true (Or.inl le_rfl)⟩

/-- Claim C6: for every rectangle fully inside the buffer bounds and the
identity-format case (the requested format/type pair is the internal
representation, so the conversion function leaves texels unchanged),
`subUpdate` followed by `readPixels` over the same rectangle with the
same format and type returns exactly the uploaded pixel data. -/
theorem subUpdate_readPixels_roundtrip
    (conv : Nat → Nat → Nat → Nat → Nat → Nat)
    (hconv : ∀ f t v, conv f t f t v = v)
    (cb : ColorBuffer) (x y rw rh p_format p_type : Nat)
    (hx : x + rw ≤ cb.m_width) (hy : y + rh ≤ cb.m_height)
    (hf : p_format = cb.m_internalFormat) (ht : p_type = cb.m_internalType)
    (pixels : Nat → Nat → Nat) :
    (cb.subUpdate conv x y rw rh p_format p_type pixels).readPixels conv
        x y rw rh p_format p_type
      = (List.range rh).map fun j => (List.range rw).map fun i => pixels i j := by
  subst hf ht
  unfold ColorBuffer.readPixels ColorBuffer.subUpdate
  refine List.map_congr_left ?_
  intro j hj
  refine List.map_congr_left ?_
  intro i hi
  have hj' : j < rh := List.mem_range.mp hj
  have hi' : i < rw := List.mem_range.mp hi
  have hcond : x ≤ x + i ∧ x + i < x + rw ∧ y ≤ y + j ∧ y + j < y + rh := by
    omega
  simp only []
  rw [if_pos hcond]
  simp [hconv, Nat.add_sub_cancel_left]

/-- Witness for C6: uploading a 2 x 2 block at (1, 2) of a 64 x 64 buffer
in its internal format and reading it back returns the block. -/
theorem subUpdate_readPixels_roundtrip_witness :
    (sampleCB.subUpdate idConv 1 2 2 2 4 2 demoPixels).readPixels idConv
        1 2 2 2 4 2 = [[1, 2], [11, 12]] := by
  rw [subUpdate_readPixels_roundtrip idConv (fun _ _ _ => rfl) sampleCB
        1 2 2 2 4 2 (by decide) (by decide) rfl rfl demoPixels]
  rfl

/-- Claim C7: for a buffer produced by `create`, the blit target, the YUV
conversion target and the resizer are absent at creation; after any
sequence of public operations each is present iff some executed (guard-ok)
operation needed it; and the resizer is constructed exactly once iff some
successful `scale` ran - so of two consecutive `scale` calls only the
first constructs it and the second reuses it. -/
theorem lazy_resources (conv : Nat → Nat → Nat → Nat → Nat → Nat)
    (p_display : Nat) (pw ph : Int) (pif : Nat) (fw : FrameworkFormat)
    (eg : Bool) (hndl : Nat) (aok : Bool) (cb : ColorBuffer)
    (hcb : ColorBuffer.create p_display pw ph pif fw eg hndl aok = some cb)
    (ops : List (CBOp × Helper)) :
    cb.m_blitPresent = false ∧ cb.m_yuvTargetPresent = false ∧
    cb.m_resizerPresent = false ∧
    (runOps conv cb ops).m_resizerPresent
      = (ops.any fun p => p.2.guardOk && needsResizer p.1) ∧
    (runOps conv cb ops).m_blitPresent
      = (ops.any fun p => p.2.guardOk && needsBlit p.1) ∧
    (runOps conv cb ops).m_yuvTargetPresent
      = (ops.any fun p => p.2.guardOk && needsYuvTarget fw p.1) ∧
    (runOps conv cb ops).resizerCreations
      = (if (ops.any fun p => p.2.guardOk && needsResizer p.1) = true
         then 1 else 0) := by
  obtain ⟨hbl, hyu, hre, hcr, hfw, hwi, hhe⟩ :=
    create_inv p_display pw ph pif fw eg hndl aok cb hcb
  refine ⟨hbl, hyu, hre, ?_, ?_, ?_, ?_⟩
  · rw [runOps_resizerPresent, hre]
    simp
  · rw [runOps_blitPresent, hbl]
    simp
  · rw [runOps_yuvPresent, hyu, hfw]
    simp
  · rw [runOps_creations_absent conv cb ops hre, hcr]
    simp

/-- Witness for C7: after two consecutive guard-ok `scale` calls on a
freshly created buffer, the resizer is present and was constructed
exactly once. -/
theorem lazy_resources_witness :
    (runOps idConv createdCB demoOps).m_resizerPresent = true ∧
    (runOps idConv createdCB demoOps).resizerCreations = 1 := by
  have h := lazy_resources idConv 0 64 64 4 FrameworkFormat.glCompatible
    true 7 true createdCB rfl demoOps
  refine ⟨?_, ?_⟩
  · rw [h.2.2.2.1]
    decide
  · rw [h.2.2.2.2.2.2]
    decide

/-- Claim C8: for every buffer produced by `create` and every sequence of
public operations applied to it, `getWidth()` and `getHeight()` report
the dimensions fixed at creation, unchanged. -/
theorem dimensions_immutable (conv : Nat → Nat → Nat → Nat → Nat → Nat)
    (p_display : Nat) (pw ph : Int) (pif : Nat) (fw : FrameworkFormat)
    (eg : Bool) (hndl : Nat) (aok : Bool) (cb : ColorBuffer)
    (hcb : ColorBuffer.create p_display pw ph pif fw eg hndl aok = some cb)
    (ops : List (CBOp × Helper)) :
    (runOps conv cb ops).getWidth = pw.toNat ∧
    (runOps conv cb ops).getHeight = ph.toNat := by
  obtain ⟨hbl, hyu, hre, hcr, hfw, hwi, hhe⟩ :=
    create_inv p_display pw ph pif fw eg hndl aok cb hcb
  obtain ⟨hw2, hh2, hf2⟩ := runOps_fixed conv cb ops
  exact ⟨by rw [ColorBuffer.getWidth, hw2, hwi],
         by rw [ColorBuffer.getHeight, hh2, hhe]⟩

/-- Witness for C8: a 64 x 64 created buffer still reports 64 x 64 after a
concrete operation sequence. -/
theorem dimensions_immutable_witness :
    (runOps idConv createdCB demoOps).getWidth = (64 : Int).toNat ∧
    (runOps idConv createdCB demoOps).getHeight = (64 : Int).toNat :=
  dimensions_immutable idConv 0 64 64 4 .glCompatible true 7 true
    createdCB rfl demoOps

end ColorBufferSpec
